import Mathlib

/-!
Verification of the KoInsight annotation sync engine against its
natural-language specification.

The definitions below are a shallow embedding of the server-side annotation
repository (`annotations-repository.ts`), the upload/sync orchestrator
(`upload-service.ts`, the revision that performs deletion detection) and the
web dashboard page-recalculation helper (`annotation-card.tsx`).

Modelling conventions:
 * the `annotation` database table is a `List AnnotationRow`; knex upserts,
   updates and soft deletes become pure list transformations;
 * SQL timestamps (`db.fn.now()`, `updated_at`, `deleted_at`) are `Nat` ticks
   passed explicitly as a `now` argument;
 * JavaScript truthiness on optional strings (`!x`) is `jsFalsyStr`
   (absent or empty string), on optional numbers it is absent-or-zero;
 * the enclosing knex transaction is an `Except String` result: an exception
   rolls the transaction back, so an `Except.error` result persists nothing;
 * `Math.round` on non-negative values is `jsRound` over exact rationals,
   rounding half away from zero upwards (floor of x + 1/2).
-/

/-- Annotation subtype stored in the `annotation_type` column. -/
inductive AnnotationType where
  | highlight
  | note
  | bookmark
deriving DecidableEq

/-- Position marker object (the parsed form of `pos0` / `pos1`). -/
structure AnnotationPos where
  x : Int
  y : Int
  page : Int
deriving DecidableEq

/-- Raw annotation payload received from the KoReader plugin
(the `KoReaderAnnotation` type). The `page` field models
`String(ka.page)`: the TypeScript union `number | string` is always used
through string conversion (in `page_ref` and in the `page|datetime` key). -/
structure KoReaderAnnotationData where
  datetime : String
  datetime_updated : Option String := none
  drawer : Option String := none
  color : Option String := none
  text : Option String := none
  note : Option String := none
  chapter : Option String := none
  pageno : Option Nat := none
  page : String
  total_pages : Option Nat := none
  pos0 : Option AnnotationPos := none
  pos1 : Option AnnotationPos := none
deriving DecidableEq

/-- A stored row of the `annotation` table (schema of the annotation
migrations: base table plus the added `total_pages` and `deleted_at`
columns). -/
structure AnnotationRow where
  id : Nat
  book_md5 : String
  device_id : String
  annotation_type : AnnotationType
  text : Option String := none
  note : Option String := none
  drawer : Option String := none
  color : Option String := none
  chapter : Option String := none
  pageno : Option Nat := none
  page_ref : String
  total_pages : Option Nat := none
  pos0 : Option AnnotationPos := none
  pos1 : Option AnnotationPos := none
  datetime : String
  datetime_updated : Option String := none
  created_at : Nat := 0
  updated_at : Nat := 0
  deleted_at : Option Nat := none
deriving DecidableEq

/-- JavaScript falsiness of an optional string: `!x` is true for a missing
value and for the empty string. -/
def jsFalsyStr : Option String → Bool
  | none => true
  | some s => decide (s = "")

/-- JavaScript falsiness of an optional number: `!x` is true for a missing
value and for `0`. -/
def jsFalsyNat : Option Nat → Bool
  | none => true
  | some n => decide (n = 0)

/-- Type inference of `convertFromKoReader`: no styling and no position
markers means bookmark, otherwise note text plus excerpt text means note,
otherwise highlight. -/
def inferAnnotationType (ka : KoReaderAnnotationData) : AnnotationType :=
  if jsFalsyStr ka.drawer && jsFalsyStr ka.color && ka.pos0.isNone && ka.pos1.isNone then
    AnnotationType.bookmark
  else if !jsFalsyStr ka.note && !jsFalsyStr ka.text then
    AnnotationType.note
  else
    AnnotationType.highlight

/-- The object literal returned by `convertFromKoReader`: exactly the columns
that the TypeScript code places in the row to insert. The source does not
copy `total_pages` from the payload, so the structure has no such field and
a freshly inserted row gets the column default. -/
structure AnnotationInsert where
  book_md5 : String
  device_id : String
  annotation_type : AnnotationType
  text : Option String
  note : Option String
  drawer : Option String
  color : Option String
  chapter : Option String
  pageno : Option Nat
  page_ref : String
  pos0 : Option AnnotationPos
  pos1 : Option AnnotationPos
  datetime : String
  datetime_updated : Option String
deriving DecidableEq

/-- Embedding of `AnnotationsRepository.convertFromKoReader`. -/
def convertFromKoReader (bookMd5 deviceId : String) (ka : KoReaderAnnotationData) :
    AnnotationInsert :=
  { book_md5 := bookMd5
    device_id := deviceId
    annotation_type := inferAnnotationType ka
    text := ka.text
    note := ka.note
    drawer := ka.drawer
    color := ka.color
    chapter := ka.chapter
    pageno := ka.pageno
    page_ref := ka.page
    pos0 := ka.pos0
    pos1 := ka.pos1
    datetime := ka.datetime
    datetime_updated := ka.datetime_updated }

/-- Fresh `id` for an inserted row (autoincrement primary key). -/
def nextAnnotId (tbl : List AnnotationRow) : Nat :=
  (tbl.map (fun a => a.id)).foldl max 0 + 1

/-- The row created by `insert` for a new identity: every column of the
insert object, with defaults for the columns the object does not mention
(`total_pages` and `deleted_at` stay NULL, timestamps are set to now). -/
def newRowOfInsert (ins : AnnotationInsert) (id now : Nat) : AnnotationRow :=
  { id := id
    book_md5 := ins.book_md5
    device_id := ins.device_id
    annotation_type := ins.annotation_type
    text := ins.text
    note := ins.note
    drawer := ins.drawer
    color := ins.color
    chapter := ins.chapter
    pageno := ins.pageno
    page_ref := ins.page_ref
    total_pages := none
    pos0 := ins.pos0
    pos1 := ins.pos1
    datetime := ins.datetime
    datetime_updated := ins.datetime_updated
    created_at := now
    updated_at := now
    deleted_at := none }

/-- Conflict predicate of the upsert: the unique index on
(book_md5, device_id, page_ref, datetime). -/
def sameIdentity (a : AnnotationRow) (ins : AnnotationInsert) : Prop :=
  a.book_md5 = ins.book_md5 ∧ a.device_id = ins.device_id ∧
    a.page_ref = ins.page_ref ∧ a.datetime = ins.datetime

instance (a : AnnotationRow) (ins : AnnotationInsert) : Decidable (sameIdentity a ins) := by
  unfold sameIdentity
  infer_instance

/-- The `.onConflict(...).merge(...)` column list of `bulkInsert`: on an
identity conflict only `text`, `note`, `datetime_updated`, `pageno`,
`chapter` and `updated_at` are overwritten from the incoming row. -/
def mergeRow (a : AnnotationRow) (ins : AnnotationInsert) (now : Nat) : AnnotationRow :=
  { a with
    text := ins.text
    note := ins.note
    datetime_updated := ins.datetime_updated
    pageno := ins.pageno
    chapter := ins.chapter
    updated_at := now }

/-- One `insert ... onConflict ... merge` statement of `bulkInsert`. -/
def upsertOne (now : Nat) (tbl : List AnnotationRow) (ins : AnnotationInsert) :
    List AnnotationRow :=
  if ∃ a ∈ tbl, sameIdentity a ins then
    tbl.map (fun a => if sameIdentity a ins then mergeRow a ins now else a)
  else
    tbl ++ [newRowOfInsert ins (nextAnnotId tbl) now]

/-- Embedding of `AnnotationsRepository.bulkInsert`: convert every payload
annotation and upsert each in order inside one transaction. An empty batch
is a no-op. -/
def bulkInsert (bookMd5 deviceId : String) (kas : List KoReaderAnnotationData)
    (now : Nat) (tbl : List AnnotationRow) : List AnnotationRow :=
  if kas = [] then tbl
  else (kas.map (convertFromKoReader bookMd5 deviceId)).foldl (upsertOne now) tbl

/-- Row transformation of `markAsDeleted`: the update has no guard on
`deleted_at`, it sets the column to now on the matching id unconditionally. -/
def markAsDeletedStep (id now : Nat) (a : AnnotationRow) : AnnotationRow :=
  if a.id = id then { a with deleted_at := some now } else a

/-- Embedding of `AnnotationsRepository.markAsDeleted`. -/
def markAsDeleted (id now : Nat) (tbl : List AnnotationRow) : List AnnotationRow :=
  tbl.map (markAsDeletedStep id now)

/-- Row transformation of `markManyAsDeleted`: soft-delete a row when it
belongs to the book and device, is still active (`whereNull deleted_at`) and
its (page_ref, datetime) pair matches one of the identifiers. -/
def markManyStep (bookMd5 deviceId : String) (identifiers : List (String × String))
    (now : Nat) (a : AnnotationRow) : AnnotationRow :=
  if a.book_md5 = bookMd5 ∧ a.device_id = deviceId ∧ a.deleted_at = none ∧
      (∃ p ∈ identifiers, p.1 = a.page_ref ∧ p.2 = a.datetime) then
    { a with deleted_at := some now }
  else a

/-- Embedding of `AnnotationsRepository.markManyAsDeleted`. An empty
identifier list is a no-op. -/
def markManyAsDeleted (bookMd5 deviceId : String) (identifiers : List (String × String))
    (now : Nat) (tbl : List AnnotationRow) : List AnnotationRow :=
  if identifiers = [] then tbl
  else tbl.map (markManyStep bookMd5 deviceId identifiers now)

/-- Row transformation of `restore`: set `deleted_at` back to NULL on the
matching id. -/
def restoreStep (id : Nat) (a : AnnotationRow) : AnnotationRow :=
  if a.id = id then { a with deleted_at := none } else a

/-- Embedding of `AnnotationsRepository.restore`. -/
def restore (id : Nat) (tbl : List AnnotationRow) : List AnnotationRow :=
  tbl.map (restoreStep id)

/-- Per-type annotation counts returned by `getCountsByType`. -/
structure AnnotationCounts where
  highlight : Nat
  note : Nat
  bookmark : Nat
deriving DecidableEq

/-- Embedding of `AnnotationsRepository.getCountsByType`: group the rows of
the book that are not soft-deleted (`whereNull deleted_at`) by type. -/
def getCountsByType (md5 : String) (tbl : List AnnotationRow) : AnnotationCounts :=
  { highlight := tbl.countP (fun a =>
      decide (a.book_md5 = md5 ∧ a.deleted_at = none ∧
        a.annotation_type = AnnotationType.highlight))
    note := tbl.countP (fun a =>
      decide (a.book_md5 = md5 ∧ a.deleted_at = none ∧
        a.annotation_type = AnnotationType.note))
    bookmark := tbl.countP (fun a =>
      decide (a.book_md5 = md5 ∧ a.deleted_at = none ∧
        a.annotation_type = AnnotationType.bookmark)) }

/-- Embedding of `AnnotationsRepository.getDeletedCount`: rows of the book
with `deleted_at` set (`whereNotNull deleted_at`). -/
def getDeletedCount (md5 : String) (tbl : List AnnotationRow) : Nat :=
  tbl.countP (fun a => decide (a.book_md5 = md5 ∧ a.deleted_at ≠ none))

/-- The set-membership key used by `detectAndMarkDeletedAnnotations` for a
stored row: the template literal page_ref + "|" + datetime. -/
def annotKeyStr (a : AnnotationRow) : String :=
  a.page_ref ++ "|" ++ a.datetime

/-- The keys of the synced batch: page + "|" + datetime per payload
annotation. -/
def syncedKeys (synced : List KoReaderAnnotationData) : List String :=
  synced.map (fun ka => ka.page ++ "|" ++ ka.datetime)

/-- Embedding of `UploadService.detectAndMarkDeletedAnnotations`: collect the
active stored rows of the book and device, drop those whose concatenated key
appears among the synced keys, and soft-delete the remainder through
`markManyAsDeleted` (skipped when nothing is to delete). -/
def detectAndMarkDeletedAnnotations (bookMd5 deviceId : String)
    (synced : List KoReaderAnnotationData) (now : Nat) (tbl : List AnnotationRow) :
    List AnnotationRow :=
  let existing := tbl.filter (fun a =>
    decide (a.book_md5 = bookMd5 ∧ a.device_id = deviceId ∧ a.deleted_at = none))
  let deleted := (existing.filter (fun a =>
    decide (¬ annotKeyStr a ∈ syncedKeys synced))).map (fun a => (a.page_ref, a.datetime))
  if deleted = [] then tbl
  else markManyAsDeleted bookMd5 deviceId deleted now tbl

/-- Math.round over exact rationals: floor of x + 1/2 (ties go up), as on
the non-negative values the dashboard computes with. -/
def jsRound (q : ℚ) : Int :=
  ⌊q + 1/2⌋

/-- Embedding of `getRecalculatedPage` from the annotation card: return the
stored pageno when pageno or total_pages is JS-falsy (absent or zero) or
when the stored total equals the current total, otherwise remap
proportionally with Math.round((pageno / total_pages) * currentTotalPages). -/
def getRecalculatedPage (a : AnnotationRow) (currentTotalPages : Nat) : Option Nat :=
  match a.pageno, a.total_pages with
  | some p, some t =>
      if p = 0 ∨ t = 0 then a.pageno
      else if t = currentTotalPages then a.pageno
      else some ((jsRound ((p : ℚ) / (t : ℚ) * (currentTotalPages : ℚ))).toNat)
  | _, _ => a.pageno

/-- Displayed page number as the specification words it: the stored pageno
unchanged when either original value is missing or the current total equals
the stored total, otherwise round(pageno * current_total / stored_total). -/
def specDisplayedPage (pageno total_pages : Option Nat) (current : Nat) : Option Nat :=
  match pageno, total_pages with
  | some p, some t =>
      if t = current then some p
      else some ((jsRound ((p : ℚ) * (current : ℚ) / (t : ℚ))).toNat)
  | _, _ => pageno

/-- Book registry row as inserted by the upload service (the destructured
object without the KoReader id). -/
structure Book where
  md5 : String
  title : String
  authors : String
  series : Option String := none
  language : Option String := none
deriving DecidableEq

/-- Book metadata as sent by the plugin or read from a statistics database. -/
structure KoReaderBook where
  id : Nat
  md5 : String
  title : String
  authors : String
  series : Option String := none
  language : Option String := none
  last_open : Nat := 0
  pages : Nat := 0
  notes : Nat := 0
  highlights : Nat := 0
  total_read_pages : Option Nat := none
  total_read_time : Option Nat := none
deriving DecidableEq

/-- Device registry row. -/
structure Device where
  id : String
  model : String
deriving DecidableEq

/-- Per-device book statistics row (`book_device` table). -/
structure BookDevice where
  device_id : String
  book_md5 : String
  last_open : Nat
  pages : Nat
  notes : Nat
  highlights : Nat
  total_read_pages : Nat
  total_read_time : Nat
deriving DecidableEq

/-- Page duration statistics row (`page_stat` table). -/
structure PageStat where
  book_md5 : String
  device_id : String
  page : Nat
  start_time : Nat
  duration : Nat
  total_pages : Nat
deriving DecidableEq

/-- Server database state touched by one sync upload. -/
structure DbState where
  books : List Book
  devices : List Device
  book_devices : List BookDevice
  page_stats : List PageStat
  annotations : List AnnotationRow
deriving DecidableEq

/-- Book row built from the payload book. -/
def mkBook (b : KoReaderBook) : Book :=
  { md5 := b.md5
    title := b.title
    authors := b.authors
    series := b.series
    language := b.language }

/-- Insert of a book with `.onConflict(md5).ignore()`. -/
def insertBookIgnore (books : List Book) (b : Book) : List Book :=
  if ∃ r ∈ books, r.md5 = b.md5 then books else books ++ [b]

/-- The `book_device` row built for a payload book, attributed to the device
of the first page stat; missing statistics fields default to zero. -/
def mkBookDevice (deviceId : String) (b : KoReaderBook) : BookDevice :=
  { device_id := deviceId
    book_md5 := b.md5
    last_open := b.last_open
    pages := b.pages
    notes := b.notes
    highlights := b.highlights
    total_read_pages := b.total_read_pages.getD 0
    total_read_time := b.total_read_time.getD 0 }

/-- Conflict merge for `book_device`: always merge last_open, pages, notes
and highlights; merge the reading statistics only when the incoming value is
positive, so an annotation-only sync does not zero recorded statistics. -/
def mergeBookDevice (r bd : BookDevice) : BookDevice :=
  { r with
    last_open := bd.last_open
    pages := bd.pages
    notes := bd.notes
    highlights := bd.highlights
    total_read_time := if bd.total_read_time > 0 then bd.total_read_time else r.total_read_time
    total_read_pages := if bd.total_read_pages > 0 then bd.total_read_pages else r.total_read_pages }

/-- Upsert of a `book_device` row keyed by (book_md5, device_id). -/
def upsertBookDevice (rows : List BookDevice) (bd : BookDevice) : List BookDevice :=
  if ∃ r ∈ rows, r.book_md5 = bd.book_md5 ∧ r.device_id = bd.device_id then
    rows.map (fun r =>
      if r.book_md5 = bd.book_md5 ∧ r.device_id = bd.device_id then mergeBookDevice r bd else r)
  else rows ++ [bd]

/-- Upsert of a `page_stat` row keyed by (device_id, book_md5, page,
start_time), merging duration and total_pages on conflict. -/
def upsertPageStat (rows : List PageStat) (ps : PageStat) : List PageStat :=
  if ∃ r ∈ rows, r.device_id = ps.device_id ∧ r.book_md5 = ps.book_md5 ∧
      r.page = ps.page ∧ r.start_time = ps.start_time then
    rows.map (fun r =>
      if r.device_id = ps.device_id ∧ r.book_md5 = ps.book_md5 ∧
          r.page = ps.page ∧ r.start_time = ps.start_time then
        { r with duration := ps.duration, total_pages := ps.total_pages }
      else r)
  else rows ++ [ps]

/-- Fallback device id for manual uploads. -/
def unknownDeviceId : String := "manual-upload"

/-- The TypeError raised when `newPageStats[0].device_id` is read from an
empty statistics array while the book device rows are built. -/
def uploadDeviceIdError : String :=
  "TypeError: cannot read device_id of undefined"

/-- Annotation batch lookup in the annotations map; a missing book entry
falls back to the empty list (the `annotationsByBook[bookMd5] || []`
expression). -/
def annotBatchFor (abb : List (String × List KoReaderAnnotationData)) (md5 : String) :
    List KoReaderAnnotationData :=
  ((abb.find? (fun e => decide (e.1 = md5))).map (fun e => e.2)).getD []

/-- Embedding of `UploadService.uploadStatisticData` (the revision with
deletion detection), as one transaction: insert books (ignore on conflict),
ensure the manual-upload device when the stats carry it, build and upsert
the book_device rows (reading the device id from the first page stat, which
throws on an empty stats array when books are present), upsert page stats,
then, only when an annotations map is provided, bulk-upsert every map entry
and run deletion detection for every payload book with a truthy md5, with
the book's map entry or the empty list. An `Except.error` result models the
rolled-back transaction: nothing is persisted. -/
def uploadStatisticData (booksToImport : List KoReaderBook) (newPageStats : List PageStat)
    (annotationsByBook : Option (List (String × List KoReaderAnnotationData)))
    (now : Nat) (st : DbState) : Except String DbState :=
  let newBooks := booksToImport.map mkBook
  let books1 := newBooks.foldl insertBookIgnore st.books
  let devices1 :=
    match newPageStats with
    | [] => st.devices
    | s :: _ =>
        if s.device_id = unknownDeviceId ∧ ¬ ∃ dv ∈ st.devices, dv.id = unknownDeviceId then
          st.devices ++ [{ id := unknownDeviceId, model := "Manual Upload" }]
        else st.devices
  if booksToImport ≠ [] ∧ newPageStats = [] then
    Except.error uploadDeviceIdError
  else
    let bdRows :=
      match newPageStats with
      | [] => []
      | s :: _ => booksToImport.map (mkBookDevice s.device_id)
    let bookDevices1 := bdRows.foldl upsertBookDevice st.book_devices
    let pageStats1 := newPageStats.foldl upsertPageStat st.page_stats
    match annotationsByBook with
    | none =>
        Except.ok
          { books := books1, devices := devices1, book_devices := bookDevices1,
            page_stats := pageStats1, annotations := st.annotations }
    | some abb =>
        let deviceId :=
          match newPageStats with
          | [] => unknownDeviceId
          | s :: _ => s.device_id
        let annots1 := abb.foldl (fun t e => bulkInsert e.1 deviceId e.2 now t) st.annotations
        let bookMd5s := (newBooks.map (fun b => b.md5)).filter (fun m => decide (¬ m = ""))
        let annots2 := bookMd5s.foldl
          (fun t m => detectAndMarkDeletedAnnotations m deviceId (annotBatchFor abb m) now t)
          annots1
        Except.ok
          { books := books1, devices := devices1, book_devices := bookDevices1,
            page_stats := pageStats1, annotations := annots2 }

/-!
Theorems for the claims, one per claim, with shared helper lemmas first.
-/

/-- Helper: the two rounding expressions of the page remap agree: rounding
(p / t) * c equals rounding p * c / t over exact rationals. -/
theorem jsRound_div_mul_comm (p t c : ℚ) : jsRound (p / t * c) = jsRound (p * c / t) := by
  rw [div_mul_eq_mul_div]

/-- Claim C5: for every stored annotation with a nonzero stored total page
count and every current total page count, the recalculated display page of
the dashboard equals the specified projection: the stored pageno unchanged
when pageno or total_pages is missing or the totals agree, and otherwise
round(pageno * current_total / stored_total). The computation is a pure
function of the row and the current total, so it never mutates the stored
annotation. -/
theorem c5_recalculated_page_matches_spec (a : AnnotationRow) (current : Nat)
    (h : a.total_pages ≠ some 0) :
    getRecalculatedPage a current = specDisplayedPage a.pageno a.total_pages current := by
  unfold getRecalculatedPage specDisplayedPage
  cases hp : a.pageno with
  | none => cases ht : a.total_pages <;> simp
  | some p =>
    cases ht : a.total_pages with
    | none => simp
    | some t =>
      have ht0 : ¬ t = 0 := by
        intro h0
        exact h (h0 ▸ ht)
      by_cases hp0 : p = 0
      · subst hp0
        by_cases htc : t = current
        · simp [htc, hp]
        · have : jsRound ((0 : ℚ) * (current : ℚ) / (t : ℚ)) = 0 := by
            unfold jsRound
            norm_num
          simp [htc, ht0, hp, this, jsRound]
          norm_num
      · by_cases htc : t = current
        · simp [htc, hp]
        · simp [hp0, ht0, htc, jsRound_div_mul_comm]

def c5ExampleRow : AnnotationRow :=
  { id := 5, book_md5 := "book5", device_id := "dev5",
    annotation_type := AnnotationType.highlight, page_ref := "100",
    datetime := "2024-01-01 10:00:00", pageno := some 100, total_pages := some 200 }

/-- Witness for C5 at the example of the specification: stored pageno 100 of
total 200, current total 400. -/
theorem c5_witness :
    c5ExampleRow.total_pages ≠ some 0 ∧
      getRecalculatedPage c5ExampleRow 400 =
        specDisplayedPage c5ExampleRow.pageno c5ExampleRow.total_pages 400 :=
  ⟨by decide, c5_recalculated_page_matches_spec c5ExampleRow 400 (by decide)⟩

/-- Claim C6: the inferred annotation type follows the ordered first-match
rule on every raw record: a record with no drawer, no color and no position
markers is a bookmark; otherwise a record with a non-empty note and
non-empty text is a note; otherwise it is a highlight. The classification is
a total function on raw records with no error case. -/
theorem c6_type_inference_first_match (ka : KoReaderAnnotationData) :
    (inferAnnotationType ka = AnnotationType.bookmark ↔
      (jsFalsyStr ka.drawer = true ∧ jsFalsyStr ka.color = true ∧
        ka.pos0 = none ∧ ka.pos1 = none)) ∧
    (inferAnnotationType ka = AnnotationType.note ↔
      (¬ (jsFalsyStr ka.drawer = true ∧ jsFalsyStr ka.color = true ∧
        ka.pos0 = none ∧ ka.pos1 = none) ∧
        jsFalsyStr ka.note = false ∧ jsFalsyStr ka.text = false)) ∧
    (inferAnnotationType ka = AnnotationType.highlight ↔
      (¬ (jsFalsyStr ka.drawer = true ∧ jsFalsyStr ka.color = true ∧
        ka.pos0 = none ∧ ka.pos1 = none) ∧
        ¬ (jsFalsyStr ka.note = false ∧ jsFalsyStr ka.text = false))) := by
  have hcond :
      (jsFalsyStr ka.drawer && jsFalsyStr ka.color && ka.pos0.isNone && ka.pos1.isNone) = true ↔
        (jsFalsyStr ka.drawer = true ∧ jsFalsyStr ka.color = true ∧
          ka.pos0 = none ∧ ka.pos1 = none) := by
    simp [Bool.and_eq_true, Option.isNone_iff_eq_none, and_assoc]
  have hnote :
      (!jsFalsyStr ka.note && !jsFalsyStr ka.text) = true ↔
        (jsFalsyStr ka.note = false ∧ jsFalsyStr ka.text = false) := by
    simp [Bool.and_eq_true, Bool.not_eq_true']
  unfold inferAnnotationType
  by_cases h1 :
      (jsFalsyStr ka.drawer && jsFalsyStr ka.color && ka.pos0.isNone && ka.pos1.isNone) = true
  · have hx := hcond.mp h1
    simp only [h1, if_true]
    refine ⟨by simp [hx], ?_, ?_⟩ <;> simp [hx]
  · have hx : ¬ (jsFalsyStr ka.drawer = true ∧ jsFalsyStr ka.color = true ∧
        ka.pos0 = none ∧ ka.pos1 = none) := fun hh => h1 (hcond.mpr hh)
    rw [Bool.not_eq_true] at h1
    by_cases h2 : (!jsFalsyStr ka.note && !jsFalsyStr ka.text) = true
    · have hy := hnote.mp h2
      simp only [h1, Bool.false_eq_true, if_false, h2, if_true]
      refine ⟨by simp [hx], by simp [hx, hy], by simp [hy]⟩
    · have hy : ¬ (jsFalsyStr ka.note = false ∧ jsFalsyStr ka.text = false) :=
        fun hh => h2 (hnote.mpr hh)
      rw [Bool.not_eq_true] at h2
      simp only [h1, Bool.false_eq_true, if_false, h2]
      refine ⟨by simp [hx], by simp [hy], by simp [hx, hy]⟩

/-- Claim C8: for every book, the three per-type counts (which count only
rows with deleted_at null) plus the deleted count (which counts only rows
with deleted_at set) equal the total number of annotation rows of the
book. -/
theorem c8_counts_partition_rows (md5 : String) (tbl : List AnnotationRow) :
    (getCountsByType md5 tbl).highlight + (getCountsByType md5 tbl).note +
      (getCountsByType md5 tbl).bookmark + getDeletedCount md5 tbl =
    tbl.countP (fun a => decide (a.book_md5 = md5)) := by
  induction tbl with
  | nil => rfl
  | cons a tl ih =>
    simp only [getCountsByType, getDeletedCount, List.countP_cons] at ih ⊢
    by_cases hb : a.book_md5 = md5
    · by_cases hd : a.deleted_at = none
      · cases ht : a.annotation_type <;> (simp [hb, hd, ht] at ih ⊢; omega)
      · simp [hb, hd] at ih ⊢
        omega
    · simp [hb] at ih ⊢
      omega

/-- Helper: membership characterization of the identifier pairs computed by
deletion detection: a pair is selected exactly when some stored row of the
book and device is active and its concatenated key is absent from the synced
key set. -/
theorem mem_detectDeletedPairs (bookMd5 deviceId : String)
    (synced : List KoReaderAnnotationData) (tbl : List AnnotationRow)
    (pr : String × String) :
    pr ∈ ((tbl.filter (fun a =>
        decide (a.book_md5 = bookMd5 ∧ a.device_id = deviceId ∧ a.deleted_at = none))).filter
          (fun a => decide (¬ annotKeyStr a ∈ syncedKeys synced))).map
            (fun a => (a.page_ref, a.datetime)) ↔
      ∃ b ∈ tbl, (b.book_md5 = bookMd5 ∧ b.device_id = deviceId ∧ b.deleted_at = none) ∧
        ¬ annotKeyStr b ∈ syncedKeys synced ∧ (b.page_ref, b.datetime) = pr := by
  simp only [List.mem_map, List.mem_filter, decide_eq_true_eq]
  constructor
  · rintro ⟨b, ⟨⟨hb, hact⟩, hkey⟩, hpr⟩
    exact ⟨b, hb, hact, hkey, hpr⟩
  · rintro ⟨b, hb, hact, hkey, hpr⟩
    exact ⟨b, ⟨⟨hb, hact⟩, hkey⟩, hpr⟩

/-- Helper: the concatenated key of a stored row is determined by its
(page_ref, datetime) pair. -/
theorem annotKeyStr_eq_of_pair {a b : AnnotationRow}
    (h1 : a.page_ref = b.page_ref) (h2 : a.datetime = b.datetime) :
    annotKeyStr a = annotKeyStr b := by
  unfold annotKeyStr
  rw [h1, h2]

/-- Helper: full characterization of deletion detection as a pointwise table
transformation: a row is soft-deleted (deleted_at set to now) exactly when
it belongs to the book and device, is still active, and its concatenated
page_ref-pipe-datetime key is absent from the synced batch keys; every other
row is unchanged. -/
theorem detect_eq_map (bookMd5 deviceId : String) (synced : List KoReaderAnnotationData)
    (now : Nat) (tbl : List AnnotationRow) :
    detectAndMarkDeletedAnnotations bookMd5 deviceId synced now tbl =
      tbl.map (fun a =>
        if a.book_md5 = bookMd5 ∧ a.device_id = deviceId ∧ a.deleted_at = none ∧
            ¬ annotKeyStr a ∈ syncedKeys synced then
          { a with deleted_at := some now }
        else a) := by
  unfold detectAndMarkDeletedAnnotations
  set dels := ((tbl.filter (fun a =>
      decide (a.book_md5 = bookMd5 ∧ a.device_id = deviceId ∧ a.deleted_at = none))).filter
        (fun a => decide (¬ annotKeyStr a ∈ syncedKeys synced))).map
          (fun a => (a.page_ref, a.datetime)) with hdels
  by_cases h : dels = []
  · rw [if_pos h]
    have hnone : ∀ a ∈ tbl, ¬ (a.book_md5 = bookMd5 ∧ a.device_id = deviceId ∧
        a.deleted_at = none ∧ ¬ annotKeyStr a ∈ syncedKeys synced) := by
      rintro a ha ⟨h1, h2, h3, h4⟩
      have : (a.page_ref, a.datetime) ∈ dels :=
        (mem_detectDeletedPairs bookMd5 deviceId synced tbl _).mpr
          ⟨a, ha, ⟨h1, h2, h3⟩, h4, rfl⟩
      rw [h] at this
      exact List.not_mem_nil _ this
    have : tbl.map (fun a =>
        if a.book_md5 = bookMd5 ∧ a.device_id = deviceId ∧ a.deleted_at = none ∧
            ¬ annotKeyStr a ∈ syncedKeys synced then
          { a with deleted_at := some now }
        else a) = tbl.map id := by
      apply List.map_congr_left
      intro a ha
      rw [if_neg (hnone a ha)]
      rfl
    rw [this, List.map_id]
  · rw [if_neg h]
    unfold markManyAsDeleted
    rw [if_neg h]
    apply List.map_congr_left
    intro a ha
    unfold markManyStep
    have hiff : (a.book_md5 = bookMd5 ∧ a.device_id = deviceId ∧ a.deleted_at = none ∧
        (∃ p ∈ dels, p.1 = a.page_ref ∧ p.2 = a.datetime)) ↔
        (a.book_md5 = bookMd5 ∧ a.device_id = deviceId ∧ a.deleted_at = none ∧
          ¬ annotKeyStr a ∈ syncedKeys synced) := by
      constructor
      · rintro ⟨h1, h2, h3, p, hp, hp1, hp2⟩
        refine ⟨h1, h2, h3, ?_⟩
        obtain ⟨b, -, -, hbkey, hbpr⟩ :=
          (mem_detectDeletedPairs bookMd5 deviceId synced tbl p).mp hp
        have : annotKeyStr a = annotKeyStr b := by
          apply annotKeyStr_eq_of_pair
          · rw [← hp1, ← hbpr]
          · rw [← hp2, ← hbpr]
        rw [this]
        exact hbkey
      · rintro ⟨h1, h2, h3, h4⟩
        refine ⟨h1, h2, h3, (a.page_ref, a.datetime), ?_, rfl, rfl⟩
        exact (mem_detectDeletedPairs bookMd5 deviceId synced tbl _).mpr
          ⟨a, ha, ⟨h1, h2, h3⟩, h4, rfl⟩
    rw [if_congr hiff rfl rfl]

/-- Claim C2 (amended): for every sync of a (book, device) pair with a full
annotation batch, deletion detection sets deleted_at to the current time on
exactly those stored annotations of that pair that are active and whose
concatenated key page_ref + pipe + datetime is not present among the
concatenated keys of the received batch; all other rows, in particular the
rows whose key is present, are unchanged and remain active. -/
theorem c2_detect_marks_exactly_missing_keys (bookMd5 deviceId : String)
    (synced : List KoReaderAnnotationData) (now : Nat) (tbl : List AnnotationRow) :
    detectAndMarkDeletedAnnotations bookMd5 deviceId synced now tbl =
      tbl.map (fun a =>
        if a.book_md5 = bookMd5 ∧ a.device_id = deviceId ∧ a.deleted_at = none ∧
            ¬ annotKeyStr a ∈ syncedKeys synced then
          { a with deleted_at := some now }
        else a) :=
  detect_eq_map bookMd5 deviceId synced now tbl

def c2CexRow : AnnotationRow :=
  { id := 1, book_md5 := "book2", device_id := "dev2",
    annotation_type := AnnotationType.highlight, page_ref := "1", datetime := "2|x" }

def c2CexKa : KoReaderAnnotationData := { datetime := "x", page := "1|2" }

/-- Counterexample to claim C2 as stated: the stored active annotation with
page_ref 1 and datetime 2|x has a (page_ref, datetime) identity that is not
present in the received batch, yet deletion detection leaves it active,
because its concatenated key collides with the key of the batch annotation
with page 1|2 and datetime x. -/
theorem c2_counterexample :
    (¬ ∃ ka ∈ [c2CexKa], ka.page = c2CexRow.page_ref ∧ ka.datetime = c2CexRow.datetime) ∧
      c2CexRow.deleted_at = none ∧
      (detectAndMarkDeletedAnnotations "book2" "dev2" [c2CexKa] 5 [c2CexRow]).map
        (fun a => a.deleted_at) = [none] := by
  decide

def c9Row : AnnotationRow :=
  { id := 1, book_md5 := "book9", device_id := "dev9",
    annotation_type := AnnotationType.highlight, page_ref := "p|q", datetime := "r" }

def c9Ka : KoReaderAnnotationData := { datetime := "q|r", page := "p" }

/-- Claim C9: deletion detection decides presence by string equality of the
concatenation page + pipe + datetime; the distinct identities (p|q, r) and
(p, q|r) produce the same concatenated key, and the stored active annotation
with the first identity, although omitted from the batch, is not
soft-deleted because its key collides with the synced annotation's key. -/
theorem c9_concat_key_collision :
    annotKeyStr c9Row = c9Ka.page ++ "|" ++ c9Ka.datetime ∧
      (c9Row.page_ref, c9Row.datetime) ≠ (c9Ka.page, c9Ka.datetime) ∧
      c9Row.deleted_at = none ∧
      (detectAndMarkDeletedAnnotations "book9" "dev9" [c9Ka] 7 [c9Row]).map
        (fun a => a.deleted_at) = [none] := by
  decide

/-- Claim C7 (amended): a later soft-delete through the sync deletion path
(markManyAsDeleted) of an already soft-deleted annotation is a no-op that
leaves the row, and in particular its deleted_at timestamp, unchanged;
neither delete operation ever sets deleted_at back to null, and only the
explicit restore operation returns deleted_at to null. By contrast, the
by-id markAsDeleted operation overwrites deleted_at with the current time
even when it is already set. -/
theorem c7_soft_delete_lifecycle (bookMd5 deviceId : String)
    (identifiers : List (String × String)) (now id t : Nat) (a : AnnotationRow) :
    (a.deleted_at = some t → markManyStep bookMd5 deviceId identifiers now a = a) ∧
    ((markManyStep bookMd5 deviceId identifiers now a).deleted_at = none →
      a.deleted_at = none) ∧
    ((markAsDeletedStep id now a).deleted_at = none → a.deleted_at = none) ∧
    (a.id = id → (restoreStep id a).deleted_at = none) := by
  refine ⟨?_, ?_, ?_, ?_⟩
  · intro h
    unfold markManyStep
    rw [if_neg]
    rintro ⟨-, -, h3, -⟩
    rw [h] at h3
    cases h3
  · unfold markManyStep
    by_cases hc : a.book_md5 = bookMd5 ∧ a.device_id = deviceId ∧ a.deleted_at = none ∧
        (∃ p ∈ identifiers, p.1 = a.page_ref ∧ p.2 = a.datetime)
    · rw [if_pos hc]
      intro h
      cases h
    · rw [if_neg hc]
      exact fun h => h
  · unfold markAsDeletedStep
    by_cases hc : a.id = id
    · rw [if_pos hc]
      intro h
      cases h
    · rw [if_neg hc]
      exact fun h => h
  · intro h
    unfold restoreStep
    rw [if_pos h]

def c7Row : AnnotationRow :=
  { id := 7, book_md5 := "book7", device_id := "dev7",
    annotation_type := AnnotationType.note, page_ref := "12",
    datetime := "2024-02-02 08:00:00", deleted_at := some 1 }

/-- Witness for C7: the already-deleted row with deleted_at 1 is untouched
by a sync-path re-delete at time 5, and restore on its id clears
deleted_at. -/
theorem c7_witness :
    markManyStep "book7" "dev7" [("12", "2024-02-02 08:00:00")] 5 c7Row = c7Row ∧
      (restoreStep 7 c7Row).deleted_at = none :=
  ⟨(c7_soft_delete_lifecycle "book7" "dev7" [("12", "2024-02-02 08:00:00")] 5 7 1 c7Row).1
      (by decide),
   (c7_soft_delete_lifecycle "book7" "dev7" [("12", "2024-02-02 08:00:00")] 5 7 1 c7Row).2.2.2
      (by decide)⟩

/-- Counterexample to claim C7 as stated: the by-id soft delete of the
already soft-deleted row changes its deleted_at timestamp from 1 to 2, so a
later soft-delete is not always a no-op that leaves deleted_at unchanged. -/
theorem c7_counterexample :
    c7Row.deleted_at = some 1 ∧
      (markAsDeleted 7 2 [c7Row]).map (fun a => a.deleted_at) = [some 2] ∧
      (some 2 : Option Nat) ≠ some 1 := by
  decide

def c1FirstPayload : KoReaderAnnotationData :=
  { datetime := "2024-01-15T10:30:45", drawer := some "lighten", color := some "yellow",
    text := some "Original text", chapter := some "Chapter 1", pageno := some 407,
    page := "10", total_pages := some 1802,
    pos0 := some { x := 100, y := 200, page := 10 },
    pos1 := some { x := 400, y := 220, page := 10 } }

def c1SecondPayload : KoReaderAnnotationData :=
  { c1FirstPayload with
    text := some "Updated text", note := some "Added note", pageno := some 373,
    total_pages := some 2000, datetime_updated := some "2024-01-16T10:00:00" }

/-- Claim C1, evaluated at the failing input of the repository's own test:
after a first sync with pageno 407 and total_pages 1802 and a second sync
with the same identity carrying pageno 373 and total_pages 2000, the stored
row has pageno 373 (the merge column list of bulkInsert includes pageno) and
total_pages NULL (convertFromKoReader never copies total_pages), not the
preserved 407 and 1802 the claim requires. -/
theorem c1_bulkInsert_overwrites_pageno :
    c1FirstPayload.pageno = some 407 ∧ c1FirstPayload.total_pages = some 1802 ∧
      ((bulkInsert "book1" "dev1" [c1SecondPayload] 2
          (bulkInsert "book1" "dev1" [c1FirstPayload] 1 [])).map
        (fun a => (a.pageno, a.total_pages))) = [(some 373, none)] := by
  decide

def c4Payload : KoReaderAnnotationData :=
  { datetime := "2024-03-03T09:00:00", drawer := some "underscore", color := some "blue",
    text := some "Fresh highlight", chapter := some "Chapter 2", pageno := some 42,
    page := "42", total_pages := some 1802,
    pos0 := some { x := 10, y := 20, page := 42 },
    pos1 := some { x := 40, y := 22, page := 42 } }

/-- Claim C4, evaluated at the failing input: a fresh bulkInsert of a payload
annotation carrying total_pages 1802 stores a row whose total_pages is NULL,
because convertFromKoReader omits the total_pages field from the inserted
object, contradicting the claim that the first payload's snapshot is
stored. -/
theorem c4_insert_drops_total_pages :
    c4Payload.total_pages = some 1802 ∧
      ((bulkInsert "book4" "dev4" [c4Payload] 1 []).map (fun a => a.total_pages)) =
        [none] := by
  decide

/-- Claim C10: for every upload with a non-empty book list and an empty
page-stats array, uploadStatisticData throws the device-id TypeError while
building the book_device rows, so the transaction is rolled back and nothing
from the sync is persisted; an annotation-only payload therefore needs at
least one page-stat row to succeed. -/
theorem c10_empty_stats_throws (booksToImport : List KoReaderBook)
    (annotationsByBook : Option (List (String × List KoReaderAnnotationData)))
    (now : Nat) (st : DbState) (h : booksToImport ≠ []) :
    uploadStatisticData booksToImport [] annotationsByBook now st =
      Except.error uploadDeviceIdError := by
  unfold uploadStatisticData
  rw [if_pos ⟨h, rfl⟩]

def c10Book : KoReaderBook :=
  { id := 10, md5 := "book10", title := "Title 10", authors := "Author 10" }

def c10State : DbState :=
  { books := [], devices := [], book_devices := [], page_stats := [], annotations := [] }

/-- Witness for C10 at a concrete annotation-only payload. -/
theorem c10_witness :
    ([c10Book] : List KoReaderBook) ≠ [] ∧
      uploadStatisticData [c10Book] [] (some [("book10", [])]) 3 c10State =
        Except.error uploadDeviceIdError :=
  ⟨by decide, c10_empty_stats_throws [c10Book] (some [("book10", [])]) 3 c10State (by decide)⟩

def c3CexRow : AnnotationRow :=
  { id := 1, book_md5 := "book3", device_id := "dev3",
    annotation_type := AnnotationType.highlight, page_ref := "10",
    datetime := "2024-01-01 10:00:00" }

def c3CexBook : KoReaderBook :=
  { id := 3, md5 := "book3", title := "Title 3", authors := "Author 3" }

def c3CexStat : PageStat :=
  { book_md5 := "book3", device_id := "dev3", page := 1, start_time := 0, duration := 5,
    total_pages := 10 }

def c3CexState : DbState :=
  { books := [], devices := [], book_devices := [], page_stats := [],
    annotations := [c3CexRow] }

/-- Counterexample to claim C3 as stated: the sync provides an annotations
map with no entry at all for book3, which appears in the payload book list
and has one stored active annotation; after the upload that annotation has
deleted_at set, so deletion detection did run for a book absent from the
annotations map. -/
theorem c3_counterexample :
    (¬ ∃ e ∈ ([] : List (String × List KoReaderAnnotationData)), e.1 = c3CexBook.md5) ∧
      c3CexRow.deleted_at = none ∧ c3CexRow.book_md5 = c3CexBook.md5 ∧
      ((uploadStatisticData [c3CexBook] [c3CexStat] (some []) 9 c3CexState).toOption.map
        (fun r => r.annotations.map (fun a => a.deleted_at))) = some [some 9] := by
  decide

/-- Claim C3 (amended): when the annotations map is provided, the upload runs
deletion detection for every book of the payload book list with a truthy
(non-empty) md5, in list order after all bulk upserts, each run using the
book's annotations-map entry when present and the empty batch otherwise —
each such run soft-deletes exactly the active stored annotations of that
book and the sync device whose concatenated key is absent from that batch,
so a listed book with no map entry is treated as an explicit empty batch and
its active annotations are soft-deleted; when the annotations map itself is
absent, no annotation upserts or deletion detection run and the stored
annotations are unchanged. Stated for any payload with at least one page
stat (the empty-stats case throws, see C10). -/
theorem c3_detection_runs_for_every_listed_book (books : List KoReaderBook) (s : PageStat)
    (rest : List PageStat) (abb : List (String × List KoReaderAnnotationData))
    (now : Nat) (st : DbState) :
    (∃ st2, uploadStatisticData books (s :: rest) none now st = Except.ok st2 ∧
      st2.annotations = st.annotations) ∧
    (∃ st2, uploadStatisticData books (s :: rest) (some abb) now st = Except.ok st2 ∧
      st2.annotations =
        ((books.map (fun b => b.md5)).filter (fun m => decide (¬ m = ""))).foldl
          (fun t m => t.map (fun a =>
            if a.book_md5 = m ∧ a.device_id = s.device_id ∧ a.deleted_at = none ∧
                ¬ annotKeyStr a ∈ syncedKeys (annotBatchFor abb m) then
              { a with deleted_at := some now }
            else a))
          (abb.foldl (fun t e => bulkInsert e.1 s.device_id e.2 now t) st.annotations)) := by
  have hmd5 : (books.map mkBook).map (fun b => b.md5) = books.map (fun b => b.md5) := by
    simp [List.map_map, Function.comp, mkBook]
  constructor
  · unfold uploadStatisticData
    rw [if_neg (by simp)]
    exact ⟨_, rfl, rfl⟩
  · unfold uploadStatisticData
    rw [if_neg (by simp)]
    refine ⟨_, rfl, ?_⟩
    show ((((books.map mkBook).map (fun b => b.md5)).filter (fun m => decide (¬ m = ""))).foldl
        (fun t m => detectAndMarkDeletedAnnotations m s.device_id (annotBatchFor abb m) now t)
        (abb.foldl (fun t e => bulkInsert e.1 s.device_id e.2 now t) st.annotations)) = _
    rw [hmd5]
    have key : ∀ (ms : List String) (t : List AnnotationRow),
        ms.foldl (fun t m =>
          detectAndMarkDeletedAnnotations m s.device_id (annotBatchFor abb m) now t) t =
        ms.foldl (fun t m => t.map (fun a =>
          if a.book_md5 = m ∧ a.device_id = s.device_id ∧ a.deleted_at = none ∧
              ¬ annotKeyStr a ∈ syncedKeys (annotBatchFor abb m) then
            { a with deleted_at := some now }
          else a)) t := by
      intro ms
      induction ms with
      | nil => intro t; rfl
      | cons m ms ih =>
        intro t
        simp only [List.foldl_cons]
        rw [detect_eq_map]
        exact ih _
    exact key _ _
